import Mathlib

/-!
Verification of the analytics-dashboard core: query-parameter validation
(src/lib/utils/validation.ts), the analytics summary aggregation
(src/app/api/metrics/daily/route.ts, the withAuth-wrapped GET), the auth
guard (withAuth / getAuthenticatedUser), logout, and the login/signup email
normalization. Shallow embedding: timestamps are integers (milliseconds),
JS numbers are rationals, nullable fields are Option, fallible external
calls are explicit outcome values.
-/

/-! ## String utilities (JS trim, toLowerCase, character classes) -/

/-- The character set matched by the JS regex class backslash-s and removed by
String.prototype.trim: ASCII whitespace, NBSP, the Unicode space separators,
line/paragraph separators and the BOM. -/
def jsWhitespaceChar (c : Char) : Bool :=
  let n := c.toNat
  n == 0x20 || (0x9 ≤ n && n ≤ 0xD) || n == 0xA0 || n == 0x1680 ||
    (0x2000 ≤ n && n ≤ 0x200A) || n == 0x2028 || n == 0x2029 ||
    n == 0x202F || n == 0x205F || n == 0x3000 || n == 0xFEFF

/-- Drop leading and trailing JS whitespace from a character list. -/
def jsTrimList (l : List Char) : List Char :=
  ((l.dropWhile jsWhitespaceChar).reverse.dropWhile jsWhitespaceChar).reverse

/-- Model of JS String.prototype.trim. -/
def jsTrim (s : String) : String := String.mk (jsTrimList s.data)

/-! ## Query parameter validation (src/lib/utils/validation.ts) -/

/-- One character of the source regex class in validateStringParam,
`[a-zA-Z0-9_\-\s]`: letter, digit, underscore, dash, or any JS whitespace. -/
def srcStrClassChar (c : Char) : Bool :=
  c.isAlpha || c.isDigit || c == '_' || c == '-' || jsWhitespaceChar c

/-- The full-string test of the source regex `^[a-zA-Z0-9_\-\s]+$`. -/
def matchesSrcStrClass (l : List Char) : Bool :=
  !l.isEmpty && l.all srcStrClassChar

/-- One character of the class the spec names for string parameters,
`[A-Za-z0-9_\- ]`: letter, digit, underscore, dash, or a plain space. -/
def claimedStrClassChar (c : Char) : Bool :=
  c.isAlpha || c.isDigit || c == '_' || c == '-' || c == ' '

/-- validateStringParam from src/lib/utils/validation.ts: a missing or empty
value is null; the value is trimmed; a supplied non-empty allow-list demands
exact (case-sensitive) membership; otherwise the trimmed value must match
`^[a-zA-Z0-9_\-\s]+$`. -/
def validateStringParam (value : Option String) (allowedValues : Option (List String)) :
    Option String :=
  match value with
  | none => none
  | some v =>
    if v = "" then none
    else
      match allowedValues with
      | some allowed =>
        if allowed.length > 0 then
          if jsTrim v ∈ allowed then some (jsTrim v) else none
        else if matchesSrcStrClass (jsTrim v).data then some (jsTrim v) else none
      | none => if matchesSrcStrClass (jsTrim v).data then some (jsTrim v) else none

/-- The source regex `^\d{4}-\d{2}-\d{2}$` of validateDateParam. -/
def isoDateShape : List Char → Bool
  | [y1, y2, y3, y4, s1, m1, m2, s2, d1, d2] =>
    y1.isDigit && y2.isDigit && y3.isDigit && y4.isDigit && s1 == '-' &&
      m1.isDigit && m2.isDigit && s2 == '-' && d1.isDigit && d2.isDigit
  | _ => false

/-- Numeric value of a decimal digit character. -/
def digitVal (c : Char) : ℕ := c.toNat - 48

/-- The year field of a YYYY-MM-DD character list. -/
def isoYear : List Char → ℕ
  | y1 :: y2 :: y3 :: y4 :: _ =>
    ((digitVal y1 * 10 + digitVal y2) * 10 + digitVal y3) * 10 + digitVal y4
  | _ => 0

/-- The month field of a YYYY-MM-DD character list. -/
def isoMonth : List Char → ℕ
  | _ :: _ :: _ :: _ :: _ :: m1 :: m2 :: _ => digitVal m1 * 10 + digitVal m2
  | _ => 0

/-- The day field of a YYYY-MM-DD character list. -/
def isoDay : List Char → ℕ
  | _ :: _ :: _ :: _ :: _ :: _ :: _ :: _ :: d1 :: d2 :: _ => digitVal d1 * 10 + digitVal d2
  | _ => 0

/-- Model of the ECMAScript Date parser (new Date(s) yielding a non-NaN time
value) on strings already matching the YYYY-MM-DD shape: the parse succeeds
exactly when the month is 01..12 and the day 01..31; a day that overflows the
actual length of the month (e.g. 2024-02-30) rolls over into the next month
and still yields a valid time value. -/
def jsDateParseOK (l : List Char) : Bool :=
  isoDateShape l && decide (1 ≤ isoMonth l ∧ isoMonth l ≤ 12 ∧ 1 ≤ isoDay l ∧ isoDay l ≤ 31)

/-- validateDateParam from src/lib/utils/validation.ts: a missing or empty
value is null; the value is trimmed, must match `^\d{4}-\d{2}-\d{2}$`, and
new Date on it must yield a valid time value. -/
def validateDateParam (value : Option String) : Option String :=
  match value with
  | none => none
  | some v =>
    if v = "" then none
    else
      if isoDateShape (jsTrim v).data then
        if jsDateParseOK (jsTrim v).data then some (jsTrim v) else none
      else none

/-- Gregorian leap-year test (spec side, for the calendar-date reading). -/
def isLeapYear (y : ℕ) : Bool := (y % 4 == 0 && y % 100 != 0) || y % 400 == 0

/-- Days in a month of the Gregorian calendar (spec side). -/
def daysInMonth (y m : ℕ) : ℕ :=
  if m == 2 then (if isLeapYear y then 29 else 28)
  else if m == 4 || m == 6 || m == 9 || m == 11 then 30
  else 31

/-- Whether a YYYY-MM-DD character list denotes a real calendar date: month
01..12 and day within the actual length of that month (spec side; this is
the "valid calendar date" reading of the claim, stricter than the parser). -/
def isRealCalendarDate (l : List Char) : Bool :=
  isoDateShape l &&
    decide (1 ≤ isoMonth l ∧ isoMonth l ≤ 12 ∧ 1 ≤ isoDay l ∧
      isoDay l ≤ daysInMonth (isoYear l) (isoMonth l))

/-! ## Data model: posts and aggregated metrics
(src/app/api/metrics/daily/route.ts, withAuth-wrapped GET) -/

/-- A row of the posts table as the summary route reads it. Counters are
nullable non-negative integers (null is read through `|| 0`); the
engagement rate is a nullable percentage kept distinct from zero. -/
structure Post where
  id : ℕ
  caption : Option String := none
  posted_at : Int := 0
  likes : Option ℕ := none
  comments : Option ℕ := none
  shares : Option ℕ := none
  saves : Option ℕ := none
  impressions : Option ℕ := none
  reach : Option ℕ := none
  engagement_rate : Option ℚ := none
deriving DecidableEq, Repr

/-- The record calculateMetrics builds for a post list. -/
structure Metrics where
  totalPosts : ℕ
  totalViews : ℕ
  totalEngagements : ℕ
  averageEngagementRate : ℚ
  totalReach : ℕ
  totalLikes : ℕ
  totalComments : ℕ
  totalShares : ℕ
deriving DecidableEq, Repr

/-- The `reduce((sum, post) => sum + (post.x || 0), 0)` pattern of the route. -/
def natSumBy (l : List Post) (f : Post → ℕ) : ℕ :=
  l.foldl (fun sum p => sum + f p) 0

/-- Sum of engagement rates with `post.engagement_rate || 0`. -/
def rateSum (l : List Post) : ℚ :=
  l.foldl (fun sum p => sum + p.engagement_rate.getD 0) 0

/-- calculateMetrics from the summary route: counts, counter sums with
missing values read as 0, and the average engagement rate taken only over
the posts whose rate is not null. -/
def calculateMetrics (postList : List Post) : Metrics :=
  let totalPosts := postList.length
  let totalViews := natSumBy postList (fun p => p.impressions.getD 0)
  let totalLikes := natSumBy postList (fun p => p.likes.getD 0)
  let totalComments := natSumBy postList (fun p => p.comments.getD 0)
  let totalShares := natSumBy postList (fun p => p.shares.getD 0)
  let totalReach := natSumBy postList (fun p => p.reach.getD 0)
  let totalEngagements :=
    totalLikes + totalComments + totalShares + natSumBy postList (fun p => p.saves.getD 0)
  let postsWithEngagementRate := postList.filter (fun p => p.engagement_rate.isSome)
  let averageEngagementRate : ℚ :=
    if postsWithEngagementRate.length > 0 then
      rateSum postsWithEngagementRate / (postsWithEngagementRate.length : ℚ)
    else 0
  { totalPosts, totalViews, totalEngagements, averageEngagementRate,
    totalReach, totalLikes, totalComments, totalShares }

/-- The engagement score of a post in findTopPost:
`(likes || 0) + (comments || 0) + (shares || 0) + (saves || 0)`. -/
def engagementOf (p : Post) : ℕ :=
  p.likes.getD 0 + p.comments.getD 0 + p.shares.getD 0 + p.saves.getD 0

/-- The payload findTopPost returns for the selected post. -/
structure TopPost where
  id : ℕ
  caption : String
  engagement : ℕ
  postedAt : Int
deriving DecidableEq, Repr

/-- The `topPost.caption || 'No caption'` read: null or empty falls back. -/
def captionOrDefault (p : Post) : String :=
  match p.caption with
  | some c => if c = "" then "No caption" else c
  | none => "No caption"

/-- One iteration of findTopPost's loop: replace the running best only on a
strictly greater engagement score. -/
def topStep (acc : Post × ℕ) (post : Post) : Post × ℕ :=
  if engagementOf post > acc.2 then (post, engagementOf post) else acc

/-- findTopPost from the summary route: null on an empty list, else start
from the first post and scan with a strict comparison. -/
def findTopPost : List Post → Option TopPost
  | [] => none
  | p :: rest =>
    let r := (p :: rest).foldl topStep (p, engagementOf p)
    some { id := r.1.id, caption := captionOrDefault r.1,
           engagement := r.2, postedAt := r.1.posted_at }

/-- The payload findTopPost would build for a given post (spec side, used to
state which post was selected). -/
def mkTopPost (p : Post) : TopPost :=
  { id := p.id, caption := captionOrDefault p,
    engagement := engagementOf p, postedAt := p.posted_at }

/-! ## Percentage change and rounding -/

/-- Model of `Number(x.toFixed(1))`: round to one decimal, ties away from the
lower value (the JS tie rule picks the larger candidate). -/
def round1 (x : ℚ) : ℚ := ((Int.floor (x * 10 + 1 / 2) : ℤ) : ℚ) / 10

/-- Model of `Number(x.toFixed(2))`. -/
def round2 (x : ℚ) : ℚ := ((Int.floor (x * 100 + 1 / 2) : ℤ) : ℚ) / 100

/-- calculateChange from the summary route. -/
def calculateChange (current previous : ℚ) : ℚ :=
  if previous = 0 then (if current > 0 then 100 else 0)
  else round1 ((current - previous) / previous * 100)

/-! ## The summary route -/

/-- Milliseconds in one day; the route's setDate(-30) arithmetic runs in UTC
(edge runtime) so each 30-day window is exactly 30 of these. -/
def dayMs : Int := 86400000

/-- The posts of the trailing 30-day window (postedAt at or after
now - 30 days). -/
def recentPosts (posts : List Post) (now : Int) : List Post :=
  posts.filter (fun p => decide (now - 30 * dayMs ≤ p.posted_at))

/-- The posts of the 30-day window before the trailing one. -/
def previousPosts (posts : List Post) (now : Int) : List Post :=
  posts.filter (fun p =>
    decide (now - 60 * dayMs ≤ p.posted_at ∧ p.posted_at < now - 30 * dayMs))

/-- The `changes` object of the summary response. -/
structure Changes where
  totalPosts : ℚ
  totalViews : ℚ
  totalEngagements : ℚ
  averageEngagementRate : ℚ
  totalReach : ℚ
  totalLikes : ℚ
  totalComments : ℚ
  totalShares : ℚ
deriving DecidableEq, Repr

/-- The `data` object of the summary response. -/
structure SummaryData where
  totalPosts : ℕ
  totalViews : ℕ
  totalEngagements : ℕ
  averageEngagementRate : ℚ
  totalReach : ℕ
  totalLikes : ℕ
  totalComments : ℕ
  totalShares : ℕ
  topPost : Option TopPost
  changes : Changes
deriving DecidableEq, Repr

/-- All-zero changes, as the empty-collection early return writes them. -/
def zeroChanges : Changes :=
  { totalPosts := 0, totalViews := 0, totalEngagements := 0,
    averageEngagementRate := 0, totalReach := 0, totalLikes := 0,
    totalComments := 0, totalShares := 0 }

/-- The literal data object of the empty-collection early return. -/
def emptySummaryData : SummaryData :=
  { totalPosts := 0, totalViews := 0, totalEngagements := 0,
    averageEngagementRate := 0, totalReach := 0, totalLikes := 0,
    totalComments := 0, totalShares := 0, topPost := none,
    changes := zeroChanges }

/-- The data object the route builds for a non-empty post collection:
count/sum fields from the recent window, totalEngagements and the (2-decimal
rounded) average engagement rate from all posts, topPost from all posts, and
changes comparing the recent window against the previous one. -/
def computeSummaryData (posts : List Post) (now : Int) : SummaryData :=
  let recent := recentPosts posts now
  let previous := previousPosts posts now
  let recentMetrics := calculateMetrics recent
  let previousMetrics := calculateMetrics previous
  let allPostsMetrics := calculateMetrics posts
  { totalPosts := recentMetrics.totalPosts,
    totalViews := recentMetrics.totalViews,
    totalEngagements := allPostsMetrics.totalEngagements,
    averageEngagementRate := round2 allPostsMetrics.averageEngagementRate,
    totalReach := recentMetrics.totalReach,
    totalLikes := recentMetrics.totalLikes,
    totalComments := recentMetrics.totalComments,
    totalShares := recentMetrics.totalShares,
    topPost := findTopPost posts,
    changes :=
      { totalPosts := calculateChange recentMetrics.totalPosts previousMetrics.totalPosts,
        totalViews := calculateChange recentMetrics.totalViews previousMetrics.totalViews,
        totalEngagements :=
          calculateChange recentMetrics.totalEngagements previousMetrics.totalEngagements,
        averageEngagementRate :=
          calculateChange recentMetrics.averageEngagementRate
            previousMetrics.averageEngagementRate,
        totalReach := calculateChange recentMetrics.totalReach previousMetrics.totalReach,
        totalLikes := calculateChange recentMetrics.totalLikes previousMetrics.totalLikes,
        totalComments :=
          calculateChange recentMetrics.totalComments previousMetrics.totalComments,
        totalShares :=
          calculateChange recentMetrics.totalShares previousMetrics.totalShares } }

/-- A response body: the generic error shape, the logout shape, or the
summary shape. An error body carries exactly one `error` string. -/
inductive ApiBody where
  | errOnly (error : String)
  | successOnly (success : Bool)
  | summary (success : Bool) (data : SummaryData)
deriving DecidableEq, Repr

/-- An HTTP response: status code and JSON body. -/
structure ApiResponse where
  status : ℕ
  body : ApiBody
deriving DecidableEq, Repr

/-- The success path of the summary GET: the empty-collection early return,
else the computed summary; both with HTTP 200 and success true. -/
def summaryGET (posts : List Post) (now : Int) : ApiResponse :=
  if posts.length = 0 then { status := 200, body := .summary true emptySummaryData }
  else { status := 200, body := .summary true (computeSummaryData posts now) }

/-! ## Access guard (getAuthenticatedUser / requireAuth / withAuth) -/

/-- An authenticated principal as the session service yields it. -/
structure AuthUser where
  id : ℕ
deriving DecidableEq, Repr

/-- What the call to the session service can come back as: a thrown
exception, or a settled result carrying an optional user and an optional
error. -/
inductive AuthResolution where
  | thrown
  | ok (user : Option AuthUser) (error : Option String)
deriving DecidableEq, Repr

/-- getAuthenticatedUser from src/lib/utils/validation.ts: null when the
session call reports an error or no user, and null when it throws. -/
def getAuthenticatedUser : AuthResolution → Option AuthUser
  | .thrown => none
  | .ok user error => if error.isSome || user.isNone then none else user

/-- requireAuth from src/lib/utils/validation.ts: a 401 Unauthorized
response and no user, or no error and the user. -/
def requireAuth (r : AuthResolution) : Option ApiResponse × Option AuthUser :=
  match getAuthenticatedUser r with
  | none => (some { status := 401, body := .errOnly "Unauthorized" }, none)
  | some u => (none, some u)

/-- withAuth from src/lib/utils/validation.ts: run requireAuth, answer 401
with body error Unauthorized when it yields an error or no user, else run
the wrapped handler. Requests are opaque identifiers. -/
def withAuth (handler : ℕ → AuthUser → ApiResponse) (r : AuthResolution) (request : ℕ) :
    ApiResponse :=
  let auth := requireAuth r
  match auth.1, auth.2 with
  | some _, _ => { status := 401, body := .errOnly "Unauthorized" }
  | none, none => { status := 401, body := .errOnly "Unauthorized" }
  | none, some u => handler request u

/-! ## Logout (src/unnamed/part_010) and email normalization
(src/app/api/auth/login/route.ts and the signup route) -/

/-- supabase.auth.signOut as the logout route uses it: clears whatever
session there was; its returned error object is discarded by the route. -/
def signOutSession (_session : Option AuthUser) : Option AuthUser := none

/-- The logout POST: sign out regardless of the session state and answer
success true. -/
def logoutPOST (session : Option AuthUser) : Option AuthUser × ApiResponse :=
  (signOutSession session, { status := 200, body := .successOnly true })

/-- The email the login route forwards to signInWithPassword:
`email.trim().toLowerCase()`. toLowerCase is the runtime's Unicode simple
case mapping, a library function external to the repository, so it enters
the model as an explicit character-level mapping applied to the trimmed
string. -/
def loginForwardedEmail (toLowerMap : Char → Char) (email : String) : String :=
  String.mk ((jsTrim email).data.map toLowerMap)

/-- The email the signup route forwards to signUp:
`email.trim().toLowerCase()`, with the same external case mapping. -/
def signupForwardedEmail (toLowerMap : Char → Char) (email : String) : String :=
  String.mk ((jsTrim email).data.map toLowerMap)

/-! ## Concrete instances used by the testable-property claims -/

/-- A handler used to instantiate withAuth in witnesses. -/
def demoHandler : ℕ → AuthUser → ApiResponse :=
  fun _ _ => { status := 200, body := .successOnly true }

/-- A post with an engagement rate of 10. -/
def ratedPost : Post := { id := 1, engagement_rate := some 10 }

/-- A post with an absent engagement rate. -/
def unratedPost : Post := { id := 2 }

/-- A recent post used by the C1 witness. -/
def demoPost : Post :=
  { id := 7, likes := some 3, comments := some 1, engagement_rate := some 10 }

/-- Tie-break example posts with engagement totals 5, 12, 12 and 3. -/
def tiePost5 : Post := { id := 0, likes := some 5 }

/-- First post with engagement total 12. -/
def tiePost12a : Post := { id := 1, likes := some 12 }

/-- Second post with engagement total 12. -/
def tiePost12b : Post := { id := 2, likes := some 12 }

/-- A post with engagement total 3. -/
def tiePost3 : Post := { id := 3, likes := some 3 }

/-! ## Helper lemmas -/

/-- Rounding to one decimal is within a twentieth of the exact value. -/
theorem round1_abs_le (x : ℚ) : |round1 x - x| ≤ 1 / 20 := by
  have h1 : ((Int.floor (x * 10 + 1 / 2) : ℤ) : ℚ) ≤ x * 10 + 1 / 2 := Int.floor_le _
  have h2 : x * 10 + 1 / 2 - 1 < ((Int.floor (x * 10 + 1 / 2) : ℤ) : ℚ) :=
    Int.sub_one_lt_floor _
  rw [round1, abs_le]
  constructor <;> linarith

/-- Folding the rate accumulator equals the plain sum of the read rates. -/
theorem rateSum_eq_map_sum (l : List Post) (c : ℚ) :
    l.foldl (fun sum p => sum + p.engagement_rate.getD 0) c
      = c + (l.map (fun p => p.engagement_rate.getD 0)).sum := by
  induction l generalizing c with
  | nil => simp
  | cons p t ih => simp [List.foldl_cons, ih, add_assoc]

/-- Reading the rates of the isSome-filtered posts is filterMap on rates. -/
theorem filter_rate_map (posts : List Post) :
    (posts.filter (fun p => p.engagement_rate.isSome)).map (fun p => p.engagement_rate.getD 0)
      = posts.filterMap (fun p => p.engagement_rate) := by
  induction posts with
  | nil => rfl
  | cons p t ih =>
    cases hp : p.engagement_rate with
    | none => simp [List.filter_cons, List.filterMap_cons, hp, ih]
    | some r => simp [List.filter_cons, List.filterMap_cons, hp, ih]

/-- Invariants of findTopPost's scan: the running pair stays consistent, its
score never decreases, it bounds every scanned post, and it is either the
start value or a post of the list preceded only by strictly smaller scores. -/
theorem topStep_foldl_spec (l : List Post) : ∀ acc : Post × ℕ, engagementOf acc.1 = acc.2 →
    engagementOf (l.foldl topStep acc).1 = (l.foldl topStep acc).2 ∧
    acc.2 ≤ (l.foldl topStep acc).2 ∧
    (∀ q ∈ l, engagementOf q ≤ (l.foldl topStep acc).2) ∧
    (l.foldl topStep acc = acc ∨
      ∃ l1 l2, l = l1 ++ (l.foldl topStep acc).1 :: l2 ∧
        acc.2 < (l.foldl topStep acc).2 ∧
        ∀ q ∈ l1, engagementOf q < (l.foldl topStep acc).2) := by
  induction l with
  | nil =>
    intro acc h
    refine ⟨h, le_refl _, ?_, Or.inl rfl⟩
    intro q hq
    exact absurd hq (List.not_mem_nil q)
  | cons p t ih =>
    intro acc h
    simp only [List.foldl_cons]
    by_cases hp : engagementOf p > acc.2
    · have hstep : topStep acc p = (p, engagementOf p) := by simp [topStep, hp]
      rw [hstep]
      obtain ⟨ih1, ih2, ih3, ih4⟩ := ih (p, engagementOf p) rfl
      refine ⟨ih1, le_trans (le_of_lt hp) ih2, ?_, ?_⟩
      · intro q hq
        rcases List.mem_cons.mp hq with hq | hq
        · subst hq; exact ih2
        · exact ih3 q hq
      · right
        rcases ih4 with heq | ⟨l1, l2, hsplit, hlt, hall⟩
        · refine ⟨[], t, by rw [heq]; simp, by rw [heq]; exact hp, ?_⟩
          intro q hq
          exact absurd hq (List.not_mem_nil q)
        · refine ⟨p :: l1, l2, ?_, lt_of_lt_of_le hp ih2, ?_⟩
          · rw [List.cons_append, ← hsplit]
          · intro q hq
            rcases List.mem_cons.mp hq with hq | hq
            · subst hq; exact hlt
            · exact hall q hq
    · have hstep : topStep acc p = acc := by simp [topStep, hp]
      rw [hstep]
      obtain ⟨ih1, ih2, ih3, ih4⟩ := ih acc h
      have hple : engagementOf p ≤ acc.2 := Nat.le_of_not_lt hp
      refine ⟨ih1, ih2, ?_, ?_⟩
      · intro q hq
        rcases List.mem_cons.mp hq with hq | hq
        · subst hq; exact le_trans hple ih2
        · exact ih3 q hq
      · rcases ih4 with heq | ⟨l1, l2, hsplit, hlt, hall⟩
        · exact Or.inl heq
        · refine Or.inr ⟨p :: l1, l2, ?_, hlt, ?_⟩
          · rw [List.cons_append, ← hsplit]
          · intro q hq
            rcases List.mem_cons.mp hq with hq | hq
            · subst hq; exact lt_of_le_of_lt hple hlt
            · exact hall q hq

/-- On a non-empty list findTopPost returns the payload of the post its scan
settles on. -/
theorem findTopPost_cons (p : Post) (rest : List Post) :
    findTopPost (p :: rest)
      = some (mkTopPost ((p :: rest).foldl topStep (p, engagementOf p)).1) := by
  have inv1 := (topStep_foldl_spec (p :: rest) (p, engagementOf p) rfl).1
  simp only [List.foldl_cons] at inv1
  simp [findTopPost, mkTopPost, inv1]

/-! ## The claims -/

/-- C1: for a non-empty post collection the summary GET succeeds with data
whose totalPosts, totalViews, totalReach, totalLikes, totalComments and
totalShares come from the trailing 30-day window, whose totalEngagements and
averageEngagementRate come from the entire collection, and whose topPost is
selected from the entire collection. -/
theorem claim_C1 (posts : List Post) (now : Int) (hne : posts ≠ []) :
    summaryGET posts now
      = { status := 200, body := .summary true (computeSummaryData posts now) } ∧
    (computeSummaryData posts now).totalPosts
      = (calculateMetrics (recentPosts posts now)).totalPosts ∧
    (computeSummaryData posts now).totalViews
      = (calculateMetrics (recentPosts posts now)).totalViews ∧
    (computeSummaryData posts now).totalReach
      = (calculateMetrics (recentPosts posts now)).totalReach ∧
    (computeSummaryData posts now).totalLikes
      = (calculateMetrics (recentPosts posts now)).totalLikes ∧
    (computeSummaryData posts now).totalComments
      = (calculateMetrics (recentPosts posts now)).totalComments ∧
    (computeSummaryData posts now).totalShares
      = (calculateMetrics (recentPosts posts now)).totalShares ∧
    (computeSummaryData posts now).totalEngagements
      = (calculateMetrics posts).totalEngagements ∧
    (computeSummaryData posts now).averageEngagementRate
      = round2 (calculateMetrics posts).averageEngagementRate ∧
    (computeSummaryData posts now).topPost = findTopPost posts := by
  refine ⟨?_, rfl, rfl, rfl, rfl, rfl, rfl, rfl, rfl, rfl⟩
  have hlen : ¬posts.length = 0 := by simpa [List.length_eq_zero] using hne
  simp [summaryGET, hlen]

/-- C1 witness: the summary of a single recent post, evaluated concretely. -/
theorem claim_C1_witness :
    summaryGET [demoPost] 0
      = { status := 200, body := .summary true (computeSummaryData [demoPost] 0) } ∧
    (computeSummaryData [demoPost] 0).totalPosts
      = (calculateMetrics (recentPosts [demoPost] 0)).totalPosts ∧
    (computeSummaryData [demoPost] 0).totalViews
      = (calculateMetrics (recentPosts [demoPost] 0)).totalViews ∧
    (computeSummaryData [demoPost] 0).totalReach
      = (calculateMetrics (recentPosts [demoPost] 0)).totalReach ∧
    (computeSummaryData [demoPost] 0).totalLikes
      = (calculateMetrics (recentPosts [demoPost] 0)).totalLikes ∧
    (computeSummaryData [demoPost] 0).totalComments
      = (calculateMetrics (recentPosts [demoPost] 0)).totalComments ∧
    (computeSummaryData [demoPost] 0).totalShares
      = (calculateMetrics (recentPosts [demoPost] 0)).totalShares ∧
    (computeSummaryData [demoPost] 0).totalEngagements
      = (calculateMetrics [demoPost]).totalEngagements ∧
    (computeSummaryData [demoPost] 0).averageEngagementRate
      = round2 (calculateMetrics [demoPost]).averageEngagementRate ∧
    (computeSummaryData [demoPost] 0).topPost = findTopPost [demoPost] :=
  claim_C1 [demoPost] 0 (List.cons_ne_nil _ _)

/-- C2: a request whose principal resolution reports an error or no user, or
throws, resolves to no principal, and withAuth answers any request with no
resolvable principal with HTTP 401 and the body error Unauthorized and
nothing else. -/
theorem claim_C2 :
    (∀ (user : Option AuthUser) (error : Option String), error ≠ none ∨ user = none →
      getAuthenticatedUser (.ok user error) = none) ∧
    getAuthenticatedUser .thrown = none ∧
    (∀ (handler : ℕ → AuthUser → ApiResponse) (r : AuthResolution) (request : ℕ),
      getAuthenticatedUser r = none →
      withAuth handler r request = { status := 401, body := .errOnly "Unauthorized" }) := by
  refine ⟨?_, rfl, ?_⟩
  · intro user error h
    rcases h with h | h
    · cases error with
      | none => exact absurd rfl h
      | some e => cases user <;> rfl
    · subst h
      cases error <;> rfl
  · intro handler r request h
    simp [withAuth, requireAuth, h]

/-- C2 witness: a backend error and a thrown resolution both resolve to no
principal, and a protected endpoint answers 401 Unauthorized. -/
theorem claim_C2_witness :
    getAuthenticatedUser (.ok (some { id := 1 }) (some "backend unreachable")) = none ∧
    getAuthenticatedUser .thrown = none ∧
    withAuth demoHandler .thrown 0 = { status := 401, body := .errOnly "Unauthorized" } :=
  ⟨claim_C2.1 (some { id := 1 }) (some "backend unreachable") (Or.inl (by simp)),
   claim_C2.2.1,
   claim_C2.2.2 demoHandler .thrown 0 rfl⟩

/-- C3: calculateChange returns 100 when previous is 0 and current is
positive, 0 when previous is 0 otherwise, and else the relative change times
100 rounded to one decimal (within a twentieth of the exact value, an exact
multiple of a tenth, no clamping); with the three quoted examples. -/
theorem claim_C3 (current previous : ℚ) :
    (calculateChange current previous =
      if previous = 0 then (if current > 0 then 100 else 0)
      else round1 ((current - previous) / previous * 100)) ∧
    (previous ≠ 0 →
      |calculateChange current previous - (current - previous) / previous * 100| ≤ 1 / 20 ∧
      ∃ n : ℤ, calculateChange current previous = (n : ℚ) / 10) ∧
    calculateChange 0 0 = 0 ∧ calculateChange 5 0 = 100 ∧ calculateChange 50 100 = -50 := by
  refine ⟨rfl, ?_, by norm_num [calculateChange], by norm_num [calculateChange],
    by norm_num [calculateChange, round1]⟩
  intro h
  have hc : calculateChange current previous = round1 ((current - previous) / previous * 100) := by
    rw [calculateChange, if_neg h]
  rw [hc]
  exact ⟨round1_abs_le _, ⟨Int.floor ((current - previous) / previous * 100 * 10 + 1 / 2), rfl⟩⟩

/-- C3 witness: the unrounded branch at current 40, previous 80. -/
theorem claim_C3_witness :
    |calculateChange 40 80 - (40 - 80) / 80 * 100| ≤ 1 / 20 ∧
    ∃ n : ℤ, calculateChange 40 80 = (n : ℚ) / 10 :=
  (claim_C3 40 80).2.1 (by norm_num)

/-- C4: the average engagement rate is the arithmetic mean of the present
rates only, 0 when no rate is present, and a present 10 next to an absent
rate averages to 10. -/
theorem claim_C4 (posts : List Post) :
    ((calculateMetrics posts).averageEngagementRate =
      if (posts.filterMap (fun p => p.engagement_rate)).length = 0 then 0
      else (posts.filterMap (fun p => p.engagement_rate)).sum
        / ((posts.filterMap (fun p => p.engagement_rate)).length : ℚ)) ∧
    (calculateMetrics [ratedPost, unratedPost]).averageEngagementRate = 10 := by
  constructor
  · have hmap := filter_rate_map posts
    have hlen : (posts.filter (fun p => p.engagement_rate.isSome)).length
        = (posts.filterMap (fun p => p.engagement_rate)).length := by
      rw [← hmap, List.length_map]
    have hsum : rateSum (posts.filter (fun p => p.engagement_rate.isSome))
        = (posts.filterMap (fun p => p.engagement_rate)).sum := by
      rw [rateSum, rateSum_eq_map_sum, hmap, zero_add]
    show (if (posts.filter (fun p => p.engagement_rate.isSome)).length > 0 then
        rateSum (posts.filter (fun p => p.engagement_rate.isSome))
          / ((posts.filter (fun p => p.engagement_rate.isSome)).length : ℚ)
      else 0) = _
    rw [hlen, hsum]
    by_cases h0 : (posts.filterMap (fun p => p.engagement_rate)).length = 0
    · simp [h0]
    · simp [h0, Nat.pos_of_ne_zero h0]
  · norm_num [calculateMetrics, rateSum, ratedPost, unratedPost]

/-- C5: findTopPost is none exactly on the empty list; otherwise it returns
the payload of a post with maximal engagement score such that every post
before it scores strictly less (first-encountered tie-break); and on scores
5, 12, 12, 3 it picks the first post scoring 12. -/
theorem claim_C5 (l : List Post) :
    (findTopPost l = none ↔ l = []) ∧
    (∀ t, findTopPost l = some t →
      ∃ l1 c l2, l = l1 ++ c :: l2 ∧ t = mkTopPost c ∧
        (∀ q ∈ l, engagementOf q ≤ engagementOf c) ∧
        (∀ q ∈ l1, engagementOf q < engagementOf c)) ∧
    findTopPost [tiePost5, tiePost12a, tiePost12b, tiePost3] = some (mkTopPost tiePost12a) := by
  refine ⟨?_, ?_, by decide⟩
  · cases l with
    | nil => simp [findTopPost]
    | cons p t => simp [findTopPost]
  · intro t ht
    cases l with
    | nil => simp [findTopPost] at ht
    | cons p rest =>
      rw [findTopPost_cons] at ht
      have hmk : t = mkTopPost ((p :: rest).foldl topStep (p, engagementOf p)).1 :=
        (Option.some.inj ht).symm
      obtain ⟨inv1, _, bound, cases4⟩ := topStep_foldl_spec (p :: rest) (p, engagementOf p) rfl
      rcases cases4 with heq | ⟨l1, l2, hsplit, _, hall⟩
      · refine ⟨[], p, rest, rfl, ?_, ?_, ?_⟩
        · rw [hmk, heq]
        · intro q hq
          have hb := bound q hq
          rw [heq] at hb
          exact hb
        · intro q hq
          exact absurd hq (List.not_mem_nil q)
      · refine ⟨l1, ((p :: rest).foldl topStep (p, engagementOf p)).1, l2, hsplit, hmk, ?_, ?_⟩
        · intro q hq
          have hb := bound q hq
          rwa [← inv1] at hb
        · intro q hq
          have hb := hall q hq
          rwa [← inv1] at hb

/-- C5 witness: the tie-break selection instantiated on the 5, 12, 12, 3
example. -/
theorem claim_C5_witness :
    ∃ l1 c l2, [tiePost5, tiePost12a, tiePost12b, tiePost3] = l1 ++ c :: l2 ∧
      mkTopPost tiePost12a = mkTopPost c ∧
      (∀ q ∈ [tiePost5, tiePost12a, tiePost12b, tiePost3],
        engagementOf q ≤ engagementOf c) ∧
      (∀ q ∈ l1, engagementOf q < engagementOf c) :=
  (claim_C5 [tiePost5, tiePost12a, tiePost12b, tiePost3]).2.1 (mkTopPost tiePost12a) (by decide)

/-- C6: with an empty post collection the summary GET returns HTTP 200,
success true, every numeric field 0, topPost none, and every change 0. -/
theorem claim_C6 (now : Int) :
    summaryGET [] now = { status := 200, body := .summary true emptySummaryData } ∧
    emptySummaryData.totalPosts = 0 ∧ emptySummaryData.totalViews = 0 ∧
    emptySummaryData.totalEngagements = 0 ∧ emptySummaryData.averageEngagementRate = 0 ∧
    emptySummaryData.totalReach = 0 ∧ emptySummaryData.totalLikes = 0 ∧
    emptySummaryData.totalComments = 0 ∧ emptySummaryData.totalShares = 0 ∧
    emptySummaryData.topPost = none ∧ emptySummaryData.changes = zeroChanges ∧
    zeroChanges.totalPosts = 0 ∧ zeroChanges.totalViews = 0 ∧
    zeroChanges.totalEngagements = 0 ∧ zeroChanges.averageEngagementRate = 0 ∧
    zeroChanges.totalReach = 0 ∧ zeroChanges.totalLikes = 0 ∧
    zeroChanges.totalComments = 0 ∧ zeroChanges.totalShares = 0 :=
  ⟨rfl, rfl, rfl, rfl, rfl, rfl, rfl, rfl, rfl, rfl, rfl, rfl, rfl, rfl, rfl, rfl, rfl,
    rfl, rfl⟩

/-- C7 counterexample: the code accepts "2024-02-30" (the runtime date parse
rolls the day over), although February 30th is not a valid calendar date, so
the claim's "must parse into a valid calendar date, null otherwise" fails. -/
theorem claim_C7_counterexample :
    validateDateParam (some "2024-02-30") = some "2024-02-30" ∧
    isRealCalendarDate ("2024-02-30".data) = false := by decide

/-- C7 (amended): validateDateParam returns the trimmed value exactly when it
matches the four-digit dash two-digit dash two-digit pattern and the runtime
date parse succeeds, which for that pattern means month 01..12 and day
01..31 (day overflow past the month's real length rolls over, it is not
rejected); with the five quoted examples. -/
theorem claim_C7 (v : String) :
    (validateDateParam (some v) =
      if isoDateShape (jsTrim v).data ∧ jsDateParseOK (jsTrim v).data then some (jsTrim v)
      else none) ∧
    validateDateParam (some "2024-01-15") = some "2024-01-15" ∧
    validateDateParam (some "2024-1-15") = none ∧
    validateDateParam (some "24-01-15") = none ∧
    validateDateParam (some "2024/01/15") = none ∧
    validateDateParam (some "2024-13-01") = none := by
  refine ⟨?_, by decide, by decide, by decide, by decide, by decide⟩
  by_cases hv : v = ""
  · subst hv
    have hshape : isoDateShape (jsTrim "").data = false := by decide
    simp [validateDateParam, hshape]
  · simp only [validateDateParam]
    rw [if_neg hv]
    by_cases h1 : isoDateShape (jsTrim v).data
    · by_cases h2 : jsDateParseOK (jsTrim v).data
      · simp [h1, h2]
      · simp [h1, h2]
    · simp [h1]

/-- C8 counterexample, three divergences from the claim as stated: the
source regex class is `[a-zA-Z0-9_\-\s]`, so a value with an interior tab is
accepted although the tab is not in the claim's class of letters, digits,
underscore, dash and space; a supplied empty allow-list does not force null
(the code falls through to the regex branch) although "abc" is a member of
no empty list; and the empty value yields null although every of its (no)
characters is vacuously in the claimed class. -/
theorem claim_C8_counterexample :
    (validateStringParam (some "a\tb") none = some "a\tb" ∧
      jsTrim "a\tb" = "a\tb" ∧
      ("a\tb".data.all claimedStrClassChar) = false) ∧
    (validateStringParam (some "abc") (some ([] : List String)) = some "abc" ∧
      "abc" ∉ ([] : List String)) ∧
    (validateStringParam (some "") none = none ∧
      ("".data.all claimedStrClassChar) = true) := by decide

/-- C8 (amended): validateStringParam returns null for an empty value and
otherwise trims; a supplied non-empty allow-list demands exact case-sensitive
membership of the trimmed value; a supplied empty allow-list behaves as no
allow-list; with no allow-list the trimmed value must be non-empty and each
character a letter, digit, underscore, dash, or any JS whitespace (the
source class is `[a-zA-Z0-9_\-\s]`, so interior tabs or newlines also pass,
not only spaces); with the quoted allow-list examples. -/
theorem claim_C8 (v : String) (l : List String) (hv : v ≠ "") (hl : l ≠ []) :
    (validateStringParam (some v) (some l) =
      if jsTrim v ∈ l then some (jsTrim v) else none) ∧
    (validateStringParam (some v) none =
      if (jsTrim v).data ≠ [] ∧ (jsTrim v).data.all srcStrClassChar then some (jsTrim v)
      else none) ∧
    validateStringParam (some v) (some ([] : List String)) = validateStringParam (some v) none ∧
    validateStringParam (some "Instagram") (some ["instagram", "facebook"]) = none ∧
    validateStringParam (some "instagram") (some ["instagram", "facebook"]) = some "instagram" ∧
    validateStringParam (some "") none = none := by
  refine ⟨?_, ?_, ?_, by decide, by decide, by decide⟩
  · simp only [validateStringParam]
    rw [if_neg hv, if_pos (List.length_pos.mpr hl)]
  · simp only [validateStringParam]
    rw [if_neg hv]
    have hiff : (matchesSrcStrClass (jsTrim v).data = true) ↔
        ((jsTrim v).data ≠ [] ∧ (jsTrim v).data.all srcStrClassChar = true) := by
      cases hd : (jsTrim v).data with
      | nil => simp [matchesSrcStrClass]
      | cons a t => simp [matchesSrcStrClass]
    exact if_congr hiff rfl rfl
  · simp only [validateStringParam]
    simp [if_neg hv]

/-- C8 witness: the amended statement instantiated at value alpha and
allow-list [alpha, beta]. -/
theorem claim_C8_witness :
    (validateStringParam (some "alpha") (some ["alpha", "beta"]) =
      if jsTrim "alpha" ∈ ["alpha", "beta"] then some (jsTrim "alpha") else none) ∧
    (validateStringParam (some "alpha") none =
      if (jsTrim "alpha").data ≠ [] ∧ (jsTrim "alpha").data.all srcStrClassChar then
        some (jsTrim "alpha")
      else none) ∧
    validateStringParam (some "alpha") (some ([] : List String))
      = validateStringParam (some "alpha") none ∧
    validateStringParam (some "Instagram") (some ["instagram", "facebook"]) = none ∧
    validateStringParam (some "instagram") (some ["instagram", "facebook"]) = some "instagram" ∧
    validateStringParam (some "") none = none :=
  claim_C8 "alpha" ["alpha", "beta"] (by decide) (by decide)

/-- C9: the logout POST always answers success true with HTTP 200, whatever
the session state, it always leaves the signed-out state, and running it
again from the state it leaves gives the same answer and state. -/
theorem claim_C9 (session : Option AuthUser) :
    (logoutPOST session).2 = { status := 200, body := .successOnly true } ∧
    (logoutPOST session).1 = none ∧
    logoutPOST (logoutPOST session).1 = logoutPOST session :=
  ⟨rfl, rfl, rfl⟩

/-- C10: login and signup forward the same trim-then-lowercase
normalization of the submitted email, for whatever character-level case
mapping the runtime's toLowerCase applies: two submissions whose trimmed
forms agree under that mapping (they differ only in letter case or in
leading or trailing whitespace) forward the identical credential, within
each endpoint and across the two; with a concrete ASCII example under the
ASCII case mapping. -/
theorem claim_C10 (toLowerMap : Char → Char) (e1 e2 : String)
    (h : (jsTrim e1).data.map toLowerMap = (jsTrim e2).data.map toLowerMap) :
    loginForwardedEmail toLowerMap e1 = loginForwardedEmail toLowerMap e2 ∧
    signupForwardedEmail toLowerMap e1 = signupForwardedEmail toLowerMap e2 ∧
    loginForwardedEmail toLowerMap e1 = signupForwardedEmail toLowerMap e1 ∧
    loginForwardedEmail Char.toLower "  Alice@Example.COM  " = "alice@example.com" :=
  ⟨congrArg String.mk h, congrArg String.mk h, rfl, by decide⟩

/-- C10 witness: under the ASCII case mapping, an email padded with an
ideographic space and upper-cased forwards identically to its plain
lower-case variant. -/
theorem claim_C10_witness :
    loginForwardedEmail Char.toLower "　USER@Mail.com　"
      = loginForwardedEmail Char.toLower " user@mail.COM " ∧
    signupForwardedEmail Char.toLower "　USER@Mail.com　"
      = signupForwardedEmail Char.toLower " user@mail.COM " ∧
    loginForwardedEmail Char.toLower "　USER@Mail.com　"
      = signupForwardedEmail Char.toLower "　USER@Mail.com　" ∧
    loginForwardedEmail Char.toLower "  Alice@Example.COM  " = "alice@example.com" :=
  claim_C10 Char.toLower "　USER@Mail.com　" " user@mail.COM " (by decide)
